import Mathlib

/-!
# Cart domain — verification of the reconciliation spec against the source

A shallow embedding of the cart-domain repository (cart.repo.ts and the
discount-system deep-dive document) in Lean 4, together with theorems
settling the frozen claims about the natural-language specification.

Conventions: machine money amounts are `Int` minor units (cent amounts);
TypeScript optional fields become `Option`; TypeScript arrays become `List`.
Components the specification describes but the repository only declares
(the Monetary Aggregator utilities, the retry Orchestrator, the staged
Migration Workflow) are modelled from the spec's words and marked as such
in their doc comments.
-/

set_option maxRecDepth 2048

namespace CartDomain

/-- Money in integer minor units plus a currency code
(`{ centAmount, currencyCode }` in the source's `Money`). -/
structure Money where
  centAmount : Int
  currencyCode : String
deriving DecidableEq, Repr

/-- Reference to a cart-discount rule: `{ id, key?, name? }`
(shared `IncludedDiscount.discount` shape, discount deep dive). -/
structure DiscountRef where
  id : String
  key : Option String
  name : Option String
deriving DecidableEq, Repr

/-- The shared `IncludedDiscount` shape used by all three discount levels:
`{ discountedAmount : Money, discount : {...} | null }`. -/
structure IncludedDiscount where
  discountedAmount : Money
  discount : Option DiscountRef
deriving DecidableEq, Repr

/-- One entry of `LineItem.discountedPricePerQuantity`: a quantity batch with
its effective discounted price and the discounts included in it. -/
structure DiscountedPricePerQuantity where
  quantity : Nat
  discountedPriceValue : Money
  includedDiscounts : List IncludedDiscount
deriving DecidableEq, Repr

/-- Field `LineItem.price.discounted`: the unit-level discounted price
(one representative price) plus the discount that produced it. -/
structure DiscountedUnitPrice where
  value : Money
  discountId : String
deriving DecidableEq, Repr

/-- Field `LineItem.price`: original unit price, optionally a discounted unit price. -/
structure Price where
  value : Money
  discounted : Option DiscountedUnitPrice
deriving DecidableEq, Repr

/-- Per-unit shipping-target assignment on a line
(`shippingDetails.targets[]` entries). -/
structure ShippingTarget where
  addressKey : String
  quantity : Nat
deriving DecidableEq, Repr

/-- A cart line item, merging the fields the audit documents use:
`id`, `key` (contract lines), `quantity`, product/variant identity (spot
matching), `price`, the per-quantity discount breakdown, `totalPrice`,
and `shippingDetails.targets` (empty list when the optional chain
`shippingDetails?.targets` is absent). -/
structure LineItem where
  id : String
  key : Option String
  productId : String
  variantId : Nat
  quantity : Nat
  price : Price
  discountedPricePerQuantity : List DiscountedPricePerQuantity
  totalPrice : Money
  shippingTargets : List ShippingTarget
deriving DecidableEq, Repr

/-- Field `DiscountCode.discountCode`: the code entity with the cart-discount rules
it activates (`cartDiscounts[].id`). -/
structure DiscountCodeInfo where
  id : String
  code : String
  name : Option String
  cartDiscounts : List String
deriving DecidableEq, Repr

/-- One entry of `Cart.discountCodes[]`: the code reference, its platform
state string (open-ended `DiscountCodeState`), and the code entity. -/
structure AppliedDiscountCode where
  discountCodeRefId : String
  state : Option String
  discountCode : Option DiscountCodeInfo
deriving DecidableEq, Repr

/-- One entry of `Cart.discountOnTotalPrice.includedDiscounts[]`. -/
structure CartLevelIncludedDiscount where
  discountRefId : String
  discountedAmount : Money
  discount : Option DiscountRef
deriving DecidableEq, Repr

/-- Field `Cart.discountOnTotalPrice`: total cart-level discount with breakdown. -/
structure DiscountOnTotalPrice where
  discountedAmount : Money
  includedDiscounts : List CartLevelIncludedDiscount
deriving DecidableEq, Repr

/-- Shape `ShippingInfo`: shipping price, optionally a discounted price carrying
included discounts (present only when a shipping discount applied). -/
structure DiscountedShippingPrice where
  value : Money
  includedDiscounts : List IncludedDiscount
deriving DecidableEq, Repr

/-- One `Cart.shipping[]` entry (shippingMode Multiple: one per delivery
location and method). -/
structure Shipping where
  shippingKey : Option String
  shippingMethodName : Option String
  price : Option Money
  discountedPrice : Option DiscountedShippingPrice
deriving DecidableEq, Repr

/-- Tax modes the repository uses: `createCart` sets ExternalAmount,
`setTaxDisabled` sets Disabled, Platform is the platform default. -/
inductive TaxMode
  | Platform
  | ExternalAmount
  | Disabled
deriving DecidableEq, Repr

/-- Shipping modes; `createCart` sets Multiple. -/
inductive ShippingMode
  | Single
  | Multiple
deriving DecidableEq, Repr

/-- The cart aggregate as the audit documents describe it: versioned root
with line items, discount codes, cart-level discount, and a list of
shipping entries. -/
structure Cart where
  id : String
  version : Nat
  currencyCode : String
  taxMode : TaxMode
  shippingMode : ShippingMode
  lineItems : List LineItem
  discountCodes : List AppliedDiscountCode
  discountOnTotalPrice : Option DiscountOnTotalPrice
  shipping : List Shipping
deriving DecidableEq, Repr

/-- The subtotal computation embedded in `reshapeCart` (discount deep dive,
`subtotalCentAmount`): per line, use the unit-level discounted price when
present, else the original unit price, times the quantity; sum via reduce. -/
def subtotalCentAmount (lineItems : List LineItem) : Int :=
  lineItems.foldl
    (fun sum item =>
      let priceToUse :=
        match item.price.discounted with
        | some d => d.value.centAmount
        | none => item.price.value.centAmount
      sum + priceToUse * (item.quantity : Int))
    0

/-- Spec-side line subtotal (§4.2 of the spec, for comparison with the
source's `subtotalCentAmount`): the sum over quantity batches of
`batch.quantity × batch.effectivePrice`; with no batch breakdown, fall
back to `quantity × unitPrice`. -/
def specLineSubtotal (item : LineItem) : Int :=
  match item.discountedPricePerQuantity with
  | [] => (item.quantity : Int) * item.price.value.centAmount
  | batches =>
      batches.foldl
        (fun sum b => sum + (b.quantity : Int) * b.discountedPriceValue.centAmount) 0

/-- Spec-side cart subtotal: sum of spec line subtotals. -/
def specSubtotal (lineItems : List LineItem) : Int :=
  lineItems.foldl (fun sum item => sum + specLineSubtotal item) 0

/-- Scenario 1 of the spec: one line of quantity 10 split into quantity
batches of 6 units at 900 and 4 units at 800 minor units, the unit-level
discounted price being the representative 900. -/
def scenarioOneLine : LineItem :=
  { id := "li-1"
    key := none
    productId := "prod-1"
    variantId := 1
    quantity := 10
    price :=
      { value := { centAmount := 1000, currencyCode := "USD" }
        discounted := some { value := { centAmount := 900, currencyCode := "USD" }
                             discountId := "disc-1" } }
    discountedPricePerQuantity :=
      [ { quantity := 6
          discountedPriceValue := { centAmount := 900, currencyCode := "USD" }
          includedDiscounts :=
            [ { discountedAmount := { centAmount := 600, currencyCode := "USD" }
                discount := some { id := "disc-1", key := none, name := none } } ] }
      , { quantity := 4
          discountedPriceValue := { centAmount := 800, currencyCode := "USD" }
          includedDiscounts :=
            [ { discountedAmount := { centAmount := 800, currencyCode := "USD" }
                discount := some { id := "disc-2", key := none, name := none } } ] } ]
    totalPrice := { centAmount := 8600, currencyCode := "USD" }
    shippingTargets := [] }

/-- One protocol (GraphQL) error: a machine-readable `code`, a free-text
`message`, and the structured fields `addDiscountCode` extracts for
`DiscountCodeNonApplicable` rejections. -/
structure ProtocolError where
  code : String
  message : String
  discountCodeId : Option String
  reason : Option String
deriving DecidableEq, Repr

/-- The transport collaborator's error side: a transport (network) failure,
or a protocol rejection carrying GraphQL errors. -/
inductive TransportError
  | network
  | protocol (errs : List ProtocolError)
deriving DecidableEq, Repr

/-- Shape of `execute(operationDescriptor, variables) -> \x7b data?, error? \x7d`:
the result shape every repo method destructures. -/
structure ExecResult (α : Type) where
  error : Option TransportError
  data : Option α
deriving DecidableEq, Repr

/-- The repository's domain error codes (`domainError(...)` tags used by
the duplicated error-handling pattern). -/
inductive DomainError
  | networkError
  | badInput (errorCode : String) (discountCodeId : Option String) (reason : Option String)
  | notFound
  | unknown
deriving DecidableEq, Repr

/-- Whether `pat` occurs as a contiguous run inside the second list. -/
def listIncludes (pat : List Char) : List Char → Bool
  | [] => pat.isEmpty
  | c :: rest => List.isPrefixOf pat (c :: rest) || listIncludes pat rest

/-- JavaScript `String.prototype.includes`: `s` contains `pat` as a
contiguous substring. -/
def includesSub (s pat : String) : Bool :=
  listIncludes pat.toList s.toList

/-- Result handling of `addDiscountCode` (discount deep dive, repo methods):
network error → NETWORK_ERROR; a `DiscountCodeNonApplicable` GraphQL error →
BAD_INPUT with `{ errorCode, discountCodeId, reason }`; a GraphQL error whose
free-text message contains "not found" → NOT_FOUND; otherwise UNKNOWN; on
success the cart is returned as-is — the resulting `DiscountCodeState` is
never inspected (the caller must check it after success). -/
def addDiscountCode (res : ExecResult Cart) : Except DomainError Cart :=
  match res.error with
  | some TransportError.network => Except.error DomainError.networkError
  | some (TransportError.protocol errs) =>
      match errs.find? (fun e => e.code == "DiscountCodeNonApplicable") with
      | some e => Except.error (DomainError.badInput e.code e.discountCodeId e.reason)
      | none =>
          if errs.any (fun e => includesSub e.message ("not found")) then
            Except.error DomainError.notFound
          else
            Except.error DomainError.unknown
  | none =>
      match res.data with
      | some cart => Except.ok cart
      | none => Except.error DomainError.unknown

/-- Result handling of `removeDiscountCode`: asymmetric to `addDiscountCode` —
only the network-error and missing-data cases are handled; protocol errors
fall through to the data check. -/
def removeDiscountCode (res : ExecResult Cart) : Except DomainError Cart :=
  match res.error with
  | some TransportError.network => Except.error DomainError.networkError
  | _ =>
      match res.data with
      | some cart => Except.ok cart
      | none => Except.error DomainError.unknown

/-- Structured contract metadata stored as custom fields on a contract line
(`extractContractMetadata`: contract reference, contractYear,
contractLineNumber, pricePerLb). -/
structure ContractMetadata where
  contractRefId : String
  contractYear : String
  contractLineNumber : String
  pricePerLb : Int
deriving DecidableEq, Repr

/-- Inventory modes relevant to the audit documents: contract lines are
added with inventoryMode None (no inventory check); spot lines are
inventory-checked (tracked). -/
inductive InventoryMode
  | none
  | tracked
deriving DecidableEq, Repr

/-- The inventory check the platform applies when adding a line: mode None
skips the check, tracked mode requires the demanded quantity in stock. -/
def inventoryCheck (mode : InventoryMode) (stock demanded : Nat) : Bool :=
  match mode with
  | InventoryMode.none => true
  | InventoryMode.tracked => demanded ≤ stock

/-- Parameters of `addContractLineItemToCart` (cart.repo.ts [4]):
identity-key components, quantity, the externally supplied unit price in
minor units, and the contract metadata inputs. -/
structure ContractParams where
  contractYear : String
  contractNumber : String
  lineNumber : String
  lineItemKeySuffix : Option String
  quantity : Nat
  externalPriceCent : Int
  contractRefId : String
  pricePerLb : Int
deriving DecidableEq, Repr

/-- The contract identity key (cart.repo.ts [4]):
`` `contract-${contractYear}-${contractNumber}-${lineNumber}-${lineItemKeySuffix}` ``;
a missing suffix renders as the string "undefined", as a JavaScript
template literal does. -/
def contractLineItemKey (p : ContractParams) : String :=
  "contract-" ++ p.contractYear ++ "-" ++ p.contractNumber ++ "-" ++ p.lineNumber
    ++ "-" ++ (p.lineItemKeySuffix.getD ("undefined"))

/-- The contract metadata carried by a contract add-line command. -/
def contractMetadataOf (p : ContractParams) : ContractMetadata :=
  { contractRefId := p.contractRefId
    contractYear := p.contractYear
    contractLineNumber := p.lineNumber
    pricePerLb := p.pricePerLb }

/-- The line command a resolution emits: a quantity update for an existing
line (carrying the version read from the current snapshot) or an add-line
command. -/
inductive LineCommand
  | changeQuantity (cartVersion : Nat) (lineItemId : String) (quantity : Nat)
  | addLine (key : String) (quantity : Nat) (externalPriceCent : Int)
      (metadata : ContractMetadata) (inventoryMode : InventoryMode)
deriving DecidableEq, Repr

/-- Whether a line command adds a new line. -/
def LineCommand.isAddLine : LineCommand → Bool
  | LineCommand.changeQuantity _ _ _ => false
  | LineCommand.addLine _ _ _ _ _ => true

/-- The matcher `addContractLineItemToCart` uses over the snapshot's lines:
`li.key === lineItemKey`. -/
def contractKeyMatch (p : ContractParams) (li : LineItem) : Bool :=
  li.key == some (contractLineItemKey p)

/-- The upsert decision inside `addContractLineItemToCart` (cart.repo.ts [4]):
build the contract key, search the snapshot's lines for it; if a line
matches, update its quantity; otherwise add a new line with the external
price (minor units), contract metadata, and inventoryMode None. The remote
call around this decision is elided. -/
def addContractLineItemToCart (p : ContractParams) (cartVersion : Nat)
    (cartLineItems : List LineItem) : LineCommand :=
  let lineItemKey := contractLineItemKey p
  match cartLineItems.find? (contractKeyMatch p) with
  | some existingLineItem =>
      LineCommand.changeQuantity cartVersion existingLineItem.id
        (existingLineItem.quantity + p.quantity)
  | none =>
      LineCommand.addLine lineItemKey p.quantity p.externalPriceCent
        (contractMetadataOf p) InventoryMode.none

/-- Parameters of `addItemToCart` (spot item): product identity, variant
and quantity. -/
structure SpotParams where
  productId : String
  variantId : Nat
  quantity : Nat
deriving DecidableEq, Repr

/-- A cart update action in the batch `addItemToCart` sends. -/
inductive CartAction
  | setLineItemShippingDetails (lineItemId : String) (targets : List ShippingTarget)
  | addLineItem (productId : String) (variantId : Nat) (quantity : Nat)
      (inventoryMode : InventoryMode)
deriving DecidableEq, Repr

/-- Whether an action clears per-unit shipping targets. -/
def CartAction.isClearTargets : CartAction → Bool
  | CartAction.setLineItemShippingDetails _ targets => targets.isEmpty
  | CartAction.addLineItem _ _ _ _ => false

/-- Spot identity matching: product identity plus variant. -/
def spotMatch (p : SpotParams) (li : LineItem) : Bool :=
  li.productId == p.productId && li.variantId == p.variantId

/-- The action batch `addItemToCart` builds (cart.repo.ts [4]): find the
line matching the spot identity; when it carries per-unit shipping-target
assignments (`shippingDetails?.targets?.length > 0`), push a
`setLineItemShippingDetails` action with empty targets before the add, so
the platform's merge-by-identity does not desynchronize targets; spot adds
are inventory-checked. -/
def addItemToCart (p : SpotParams) (lineItems : List LineItem) : List CartAction :=
  let addAction := CartAction.addLineItem p.productId p.variantId p.quantity
      InventoryMode.tracked
  match lineItems.find? (spotMatch p) with
  | some matchingLineItem =>
      if 0 < matchingLineItem.shippingTargets.length then
        [CartAction.setLineItemShippingDetails matchingLineItem.id [], addAction]
      else
        [addAction]
  | none => [addAction]

/-- Operation `createCart` (cart.repo.ts repo surface): creates an empty cart with
taxMode ExternalAmount and shippingMode Multiple. -/
def createCart (id : String) (currencyCode : String) : Cart :=
  { id := id
    version := 1
    currencyCode := currencyCode
    taxMode := TaxMode.ExternalAmount
    shippingMode := ShippingMode.Multiple
    lineItems := []
    discountCodes := []
    discountOnTotalPrice := none
    shipping := [] }

/-- The canonical discount contribution sources (spec §3). -/
inductive DiscountSource
  | lineItemLevel
  | cartCode
  | shippingLevel
deriving DecidableEq, Repr

/-- A canonical discount contribution (spec §3): source tag, discount
identifier, amount. -/
structure DiscountContribution where
  source : DiscountSource
  discountId : String
  amount : Money
deriving DecidableEq, Repr

/-- Failure of monetary aggregation. -/
inductive AggregateError
  | currencyMismatch
deriving DecidableEq, Repr

/-- The totals the Monetary Aggregator derives (spec §4.2). -/
structure Totals where
  subtotal : Int
  lineItemDiscountTotal : Int
  cartDiscountTotal : Int
  shippingDiscountTotal : Int
  grandDiscountTotal : Int
  currency : String
deriving DecidableEq, Repr

/-- Sum of the contributions carrying one source tag, in minor units. -/
def sumBySource (contribs : List DiscountContribution) (s : DiscountSource) : Int :=
  (contribs.filter (fun c => c.source == s)).foldl
    (fun acc c => acc + c.amount.centAmount) 0

/-- Modelled from the spec: the Monetary Aggregator (§4.2) is absent from
the repository — the discount deep dive lists every aggregation utility as
not existing — so `aggregate` follows the spec's words: every
contribution's currency must equal the cart's, else aggregation fails with
CurrencyMismatch and never silently sums; per-source totals are straight
sums grouped by source tag, the grand total their sum, the subtotal the
batch-sum rule. -/
def aggregate (cart : Cart) (contribs : List DiscountContribution) :
    Except AggregateError Totals :=
  if contribs.all (fun c => c.amount.currencyCode == cart.currencyCode) then
    let li := sumBySource contribs DiscountSource.lineItemLevel
    let cc := sumBySource contribs DiscountSource.cartCode
    let sh := sumBySource contribs DiscountSource.shippingLevel
    Except.ok
      { subtotal := specSubtotal cart.lineItems
        lineItemDiscountTotal := li
        cartDiscountTotal := cc
        shippingDiscountTotal := sh
        grandDiscountTotal := li + cc + sh
        currency := cart.currencyCode }
  else
    Except.error AggregateError.currencyMismatch

/-- The migration workflow's states in which a failure can occur. -/
inductive MigrationStep
  | cloning
  | verifying
  | retiringSource
deriving DecidableEq, Repr

/-- Outcome of the migration workflow: success with the new cart's id,
failure during Cloning/Verifying reporting the new cart's id when one was
created, or PartialMigration carrying both identifiers. -/
inductive MigrationOutcome
  | done (newCartId : String)
  | failed (step : MigrationStep) (newCartId : Option String)
  | PartialMigration (sourceCartId : String) (newCartId : String)
deriving DecidableEq, Repr

/-- Which remote steps of a migration run succeed: creating the target cart,
replicating every source line into it, the verification comparison, and
deleting the source cart. -/
structure MigrationEnv where
  createOk : Bool
  cloneOk : Bool
  verifyOk : Bool
  deleteOk : Bool
deriving DecidableEq, Repr

/-- The migration run's result together with which carts were destroyed:
whether the source cart was deleted and whether the clone was rolled back. -/
structure MigrationResult where
  outcome : MigrationOutcome
  sourceDeleted : Bool
  cloneDeleted : Bool
deriving DecidableEq, Repr

/-- Modelled from the spec: the Cart Migration Workflow (§4.5). The
repository only declares `recreateCartWithBusinessUnit` ("clone lineItems
into new BU cart → delete old cart") without its failure handling, so the
staged run — Cloning, Verifying, RetiringSource — follows the spec's words:
a failure before the source is touched reports the new cart's id when one
was created; only after verification succeeds is the source deleted; a
failed deletion after a verified clone yields PartialMigration with both
identifiers and never rolls the clone back. -/
def runMigration (env : MigrationEnv) (sourceCartId newCartId : String) :
    MigrationResult :=
  if !env.createOk then
    { outcome := MigrationOutcome.failed MigrationStep.cloning none
      sourceDeleted := false, cloneDeleted := false }
  else if !env.cloneOk then
    { outcome := MigrationOutcome.failed MigrationStep.cloning (some newCartId)
      sourceDeleted := false, cloneDeleted := false }
  else if !env.verifyOk then
    { outcome := MigrationOutcome.failed MigrationStep.verifying (some newCartId)
      sourceDeleted := false, cloneDeleted := false }
  else if !env.deleteOk then
    { outcome := MigrationOutcome.PartialMigration sourceCartId newCartId
      sourceDeleted := false, cloneDeleted := false }
  else
    { outcome := MigrationOutcome.done newCartId
      sourceDeleted := true, cloneDeleted := false }

/-- Command classes the Orchestrator distinguishes (spec §4.3): the pure
additive commands (add item, apply code) versus commands with side effects
outside the cart. -/
inductive CmdClass
  | addItem
  | applyCode
  | sideEffecting
deriving DecidableEq, Repr

/-- Whether a command class is safely idempotent-to-reapply (pure additive). -/
def isAdditive : CmdClass → Bool
  | CmdClass.addItem => true
  | CmdClass.applyCode => true
  | CmdClass.sideEffecting => false

/-- Terminal result of orchestrating one command. -/
inductive OrchResult
  | success
  | conflict
deriving DecidableEq, Repr

/-- Modelled from the spec: one orchestration round (§4.3). `ok i` tells
whether the platform accepts attempt `i` (false = version conflict);
each retry re-fetches the current snapshot before reapplying, which the
attempt index models. Returns the terminal result and the number of
attempts issued. -/
def orchestrateGo (cls : CmdClass) (ok : Nat → Bool) :
    Nat → Nat → OrchResult × Nat
  | 0, i =>
      if ok i then (OrchResult.success, i + 1) else (OrchResult.conflict, i + 1)
  | fuel + 1, i =>
      if ok i then (OrchResult.success, i + 1)
      else if isAdditive cls then orchestrateGo cls ok fuel (i + 1)
      else (OrchResult.conflict, i + 1)

/-- Modelled from the spec: the Orchestrator's conflict handling (§4.3) is
absent from the repository (the client note records no retry abstraction at
call sites). On a version conflict, retry — bounded by the configured
`retryBound` — only when the command class is additive; otherwise surface
Conflict immediately. -/
def orchestrate (cls : CmdClass) (retryBound : Nat) (ok : Nat → Bool) :
    OrchResult × Nat :=
  orchestrateGo cls ok retryBound 0

/-- Concrete contract-item parameters used for witnesses: no suffix, so the
key renders the template literal's "undefined". -/
def exContractParams : ContractParams :=
  { contractYear := "2024"
    contractNumber := "C-77"
    lineNumber := "3"
    lineItemKeySuffix := none
    quantity := 5
    externalPriceCent := 900
    contractRefId := "contract-ref-1"
    pricePerLb := 12 }

/-- A snapshot line already carrying `exContractParams`' contract key. -/
def exContractLine : LineItem :=
  { id := "li-c1"
    key := some ("contract-2024-C-77-3-undefined")
    productId := "prod-contract"
    variantId := 1
    quantity := 2
    price := { value := { centAmount := 900, currencyCode := "USD" }, discounted := none }
    discountedPricePerQuantity := []
    totalPrice := { centAmount := 1800, currencyCode := "USD" }
    shippingTargets := [] }

/-- A spot line with a per-unit shipping-target assignment. -/
def exSpotLine : LineItem :=
  { id := "li-s1"
    key := none
    productId := "prod-9"
    variantId := 2
    quantity := 3
    price := { value := { centAmount := 500, currencyCode := "USD" }, discounted := none }
    discountedPricePerQuantity := []
    totalPrice := { centAmount := 1500, currencyCode := "USD" }
    shippingTargets := [ { addressKey := "addr-1", quantity := 3 } ] }

/-- A cart returned by a successful `addDiscountCode` mutation whose code
resolved to the DoesNotMatchCart state: the code is recorded with that
state and contributes no cart-level discount. -/
def doesNotMatchCart : Cart :=
  { id := "cart-1"
    version := 5
    currencyCode := "USD"
    taxMode := TaxMode.ExternalAmount
    shippingMode := ShippingMode.Multiple
    lineItems := []
    discountCodes :=
      [ { discountCodeRefId := "dc-1"
          state := some ("DoesNotMatchCart")
          discountCode := some { id := "dc-1", code := "SUMMER20", name := none
                                 cartDiscounts := ["cd-1"] } } ]
    discountOnTotalPrice := none
    shipping := [] }

/-- A protocol rejection whose only machine-readable code is unrecognized
but whose free-text message contains "not found". -/
def notFoundMessageResult : ExecResult Cart :=
  { error := some (TransportError.protocol
      [ { code := "InvalidOperation"
          message := "The cart was not found."
          discountCodeId := none
          reason := none } ])
    data := none }

/-- The same protocol rejection with the same machine-readable code and
structured fields, but a different free-text message. -/
def otherMessageResult : ExecResult Cart :=
  { error := some (TransportError.protocol
      [ { code := "InvalidOperation"
          message := "The cart was removed."
          discountCodeId := none
          reason := none } ])
    data := none }

/-- C1: the claim says the line subtotal is the sum over batches of
`batch.quantity × batch.effectivePrice` (8600 on Scenario 1's line), never
the unit-level discounted-price field. The source's `subtotalCentAmount`
does the opposite: on Scenario 1's line (quantity 10, batches 6@900 and
4@800, representative discounted unit price 900) it yields
10 × 900 = 9000, not the batch sum 8600 — the inaccuracy the audit
document itself flags on the subtotal calculation. -/
theorem C1_subtotal_ignores_batch_breakdown :
    subtotalCentAmount [scenarioOneLine] = 9000
    ∧ specLineSubtotal scenarioOneLine = 8600
    ∧ subtotalCentAmount [scenarioOneLine] - specLineSubtotal scenarioOneLine = 400 :=
  ⟨rfl, rfl, rfl⟩

/-- C3: the claim says a successful mutation whose resulting code state is
DoesNotMatch returns a DiscountRejected failure. The source's
`addDiscountCode` never inspects the resulting state: on a successful
mutation whose cart records the code in state DoesNotMatchCart with no
cart-level discount contribution, it returns success with that cart —
the gap the audit document flags ("state is never surfaced as error"). -/
theorem C3_doesNotMatch_returns_silent_success :
    addDiscountCode { error := none, data := some doesNotMatchCart }
      = Except.ok doesNotMatchCart
    ∧ doesNotMatchCart.discountCodes.map (fun d => d.state)
      = [some ("DoesNotMatchCart")]
    ∧ doesNotMatchCart.discountOnTotalPrice = none :=
  ⟨rfl, rfl, rfl⟩

/-- C4: the claim says classification never inspects free-text messages and
is identical for every command type. The source's `addDiscountCode` maps a
protocol rejection to NOT_FOUND exactly when its message text contains
"not found" — two rejections with identical machine-readable code and
structured fields but different messages classify differently — and
`removeDiscountCode` maps the very same rejection to UNKNOWN, so the
mapping also differs across command types. -/
theorem C4_classification_scans_message_text :
    addDiscountCode notFoundMessageResult = Except.error DomainError.notFound
    ∧ addDiscountCode otherMessageResult = Except.error DomainError.unknown
    ∧ removeDiscountCode notFoundMessageResult = Except.error DomainError.unknown :=
  ⟨rfl, rfl, rfl⟩

/-- C9: every cart produced by `createCart` starts with tax mode
ExternalAmount and shipping mode Multiple, and its shipping field is the
(initially empty) list of shipping entries — a `List Shipping`, not a
single shipping method. -/
theorem C9_createCart_modes (id currencyCode : String) :
    (createCart id currencyCode).taxMode = TaxMode.ExternalAmount
    ∧ (createCart id currencyCode).shippingMode = ShippingMode.Multiple
    ∧ (createCart id currencyCode).shipping = [] :=
  ⟨rfl, rfl, rfl⟩

/-- Helper: the orchestrator issues at most `fuel + 1` attempts beyond the
starting index. -/
theorem orchestrateGo_attempts_le (cls : CmdClass) (ok : Nat → Bool) :
    ∀ fuel i, (orchestrateGo cls ok fuel i).2 ≤ i + fuel + 1 := by
  intro fuel
  induction fuel with
  | zero =>
      intro i
      cases hok : ok i <;> simp [orchestrateGo, hok]
  | succ f ih =>
      intro i
      cases hok : ok i
      · cases hadd : isAdditive cls
        · simp [orchestrateGo, hok, hadd]
        · simp [orchestrateGo, hok, hadd]
          have := ih (i + 1)
          omega
      · simp [orchestrateGo, hok]

/-- Helper: a list whose members include a match makes `find?` succeed. -/
theorem find?_isSome_of_mem {α : Type} (p : α → Bool) (l : List α) (x : α)
    (hx : x ∈ l) (hp : p x = true) : (l.find? p).isSome = true := by
  simp only [List.find?_isSome]
  exact ⟨x, hx, hp⟩

/-- C2: the source cart is deleted only after a created, fully replicated
and verified clone; a failure during Cloning or Verifying leaves the source
untouched and reports failure with the new cart's identifier when one was
created; a failed RetiringSource after successful verification yields
PartialMigration with both identifiers, the source still readable, and the
clone never rolled back. -/
theorem C2_migration_source_safety (env : MigrationEnv) (s n : String) :
    ((runMigration env s n).sourceDeleted = true →
        env.createOk = true ∧ env.cloneOk = true ∧ env.verifyOk = true)
    ∧ (env.createOk = false →
        runMigration env s n =
          ⟨MigrationOutcome.failed MigrationStep.cloning none, false, false⟩)
    ∧ (env.createOk = true → env.cloneOk = false →
        runMigration env s n =
          ⟨MigrationOutcome.failed MigrationStep.cloning (some n), false, false⟩)
    ∧ (env.createOk = true → env.cloneOk = true → env.verifyOk = false →
        runMigration env s n =
          ⟨MigrationOutcome.failed MigrationStep.verifying (some n), false, false⟩)
    ∧ (env.createOk = true → env.cloneOk = true → env.verifyOk = true →
        env.deleteOk = false →
        runMigration env s n =
          ⟨MigrationOutcome.PartialMigration s n, false, false⟩) := by
  obtain ⟨c, cl, v, d⟩ := env
  cases c <;> cases cl <;> cases v <;> cases d <;> simp [runMigration]

/-- Witness for C2: a run where creating, cloning and verifying succeed and
retiring the source fails ends in PartialMigration with both identifiers,
the source not deleted and the clone not rolled back. -/
theorem C2_migration_source_safety_w :
    runMigration ⟨true, true, true, false⟩ ("cart-src") ("cart-new") =
      ⟨MigrationOutcome.PartialMigration "cart-src" "cart-new", false, false⟩ :=
  (C2_migration_source_safety ⟨true, true, true, false⟩ ("cart-src") ("cart-new")).2.2.2.2
    rfl rfl rfl rfl

/-- C5: on a version conflict the orchestrator never silently retries a
command with side effects outside the cart (it surfaces Conflict after the
single attempt); attempts are bounded by the configured retry bound plus
the initial attempt; an additive command is retried after a conflict (here
succeeding on the re-fetched second attempt); and re-resolving a contract
add against a snapshot that already contains the contract key emits no
add-line command, so the retry cannot duplicate the line. -/
theorem C5_conflict_retry_discipline (b : Nat) (ok : Nat → Bool)
    (p : ContractParams) (v : Nat) (items : List LineItem) :
    (∀ cls, isAdditive cls = false → ok 0 = false →
        orchestrate cls b ok = (OrchResult.conflict, 1))
    ∧ (∀ cls, (orchestrate cls b ok).2 ≤ b + 1)
    ∧ (0 < b → ok 0 = false → ok 1 = true →
        orchestrate CmdClass.addItem b ok = (OrchResult.success, 2))
    ∧ ((∃ li, li ∈ items ∧ li.key = some (contractLineItemKey p)) →
        (addContractLineItemToCart p v items).isAddLine = false) := by
  refine ⟨?_, ?_, ?_, ?_⟩
  · intro cls hcls h0
    cases b <;> simp [orchestrate, orchestrateGo, h0, hcls]
  · intro cls
    have h := orchestrateGo_attempts_le cls ok b 0
    simpa [orchestrate] using h
  · intro hb h0 h1
    cases b with
    | zero => cases hb
    | succ f =>
        cases f <;> simp [orchestrate, orchestrateGo, h0, h1, isAdditive]
  · rintro ⟨li, hmem, hkey⟩
    have hp : contractKeyMatch p li = true := by
      simp [contractKeyMatch, hkey]
    have hsome : (items.find? (contractKeyMatch p)).isSome = true :=
      find?_isSome_of_mem (contractKeyMatch p) items li hmem hp
    unfold addContractLineItemToCart
    cases hf : items.find? (contractKeyMatch p) with
    | none => rw [hf] at hsome; cases hsome
    | some found => simp [LineCommand.isAddLine]

/-- Witness for C5: a side-effecting command conflicting on its first
attempt surfaces Conflict after exactly one attempt, and a contract
re-resolution against a snapshot already holding the key emits no add-line
command. -/
theorem C5_conflict_retry_discipline_w :
    orchestrate CmdClass.sideEffecting 3 (fun i => decide (i = 1)) =
      (OrchResult.conflict, 1)
    ∧ (addContractLineItemToCart exContractParams 7 [exContractLine]).isAddLine
      = false := by
  have h := C5_conflict_retry_discipline 3 (fun i => decide (i = 1))
    exContractParams 7 [exContractLine]
  refine ⟨h.1 CmdClass.sideEffecting rfl rfl, h.2.2.2 ⟨exContractLine, ?_, ?_⟩⟩
  · exact List.mem_singleton.mpr rfl
  · decide

/-- C6: the contract identity key is the deterministic composite of contract
year, contract number, contract line number and the optional suffix; the
snapshot contains a line with that key precisely when `find?` on the key
matcher succeeds; a found line yields a quantity-update for that line
carrying the version read from the current snapshot; an absent key yields
an add-line command carrying the externally supplied unit price in minor
units and the structured contract metadata. -/
theorem C6_contract_resolution (p : ContractParams) (v : Nat)
    (items : List LineItem) :
    ((items.find? (contractKeyMatch p)).isSome = true ↔
        ∃ li, li ∈ items ∧ li.key = some (contractLineItemKey p))
    ∧ (∀ li, items.find? (contractKeyMatch p) = some li →
        li ∈ items ∧ li.key = some (contractLineItemKey p) ∧
          addContractLineItemToCart p v items =
            LineCommand.changeQuantity v li.id (li.quantity + p.quantity))
    ∧ (items.find? (contractKeyMatch p) = none →
        addContractLineItemToCart p v items =
          LineCommand.addLine (contractLineItemKey p) p.quantity
            p.externalPriceCent (contractMetadataOf p) InventoryMode.none) := by
  refine ⟨?_, ?_, ?_⟩
  · constructor
    · intro hsome
      cases hf : items.find? (contractKeyMatch p) with
      | none => rw [hf] at hsome; cases hsome
      | some li =>
          have hmem := List.mem_of_find?_eq_some hf
          have hp := List.find?_some hf
          have hkey : li.key = some (contractLineItemKey p) := by
            simpa [contractKeyMatch] using hp
          exact ⟨li, hmem, hkey⟩
    · rintro ⟨li, hmem, hkey⟩
      exact find?_isSome_of_mem (contractKeyMatch p) items li hmem
        (by simp [contractKeyMatch, hkey])
  · intro li hf
    have hmem := List.mem_of_find?_eq_some hf
    have hp := List.find?_some hf
    have hkey : li.key = some (contractLineItemKey p) := by
      simpa [contractKeyMatch] using hp
    refine ⟨hmem, hkey, ?_⟩
    unfold addContractLineItemToCart
    rw [hf]
  · intro hf
    unfold addContractLineItemToCart
    rw [hf]

/-- Witness for C6: resolving `exContractParams` against a snapshot already
holding its contract key emits a quantity-update for that line at the
presented version. -/
theorem C6_contract_resolution_w :
    addContractLineItemToCart exContractParams 7 [exContractLine] =
      LineCommand.changeQuantity 7 exContractLine.id
        (exContractLine.quantity + exContractParams.quantity) :=
  ((C6_contract_resolution exContractParams 7 [exContractLine]).2.1
    exContractLine (by decide)).2.2

/-- C7: when the line matched by spot identity carries per-unit
shipping-target assignments, `addItemToCart` emits the clearing action for
that line first, in the same batch, before the add the platform merges by
identity; when every match carries no targets (or nothing matches), no
clearing action is emitted. -/
theorem C7_spot_targets_precursor (p : SpotParams) (items : List LineItem) :
    (∀ li, items.find? (spotMatch p) = some li →
        0 < li.shippingTargets.length →
        addItemToCart p items =
          [ CartAction.setLineItemShippingDetails li.id []
          , CartAction.addLineItem p.productId p.variantId p.quantity
              InventoryMode.tracked ])
    ∧ ((∀ li, items.find? (spotMatch p) = some li → li.shippingTargets = []) →
        ∀ a, a ∈ addItemToCart p items → a.isClearTargets = false) := by
  constructor
  · intro li hf htargets
    unfold addItemToCart
    rw [hf]
    simp [htargets]
  · intro hnone a ha
    unfold addItemToCart at ha
    cases hf : items.find? (spotMatch p) with
    | none =>
        rw [hf] at ha
        simp at ha
        simp [ha, CartAction.isClearTargets]
    | some li =>
        have hempty := hnone li hf
        rw [hf] at ha
        simp [hempty] at ha
        simp [ha, CartAction.isClearTargets]

/-- Witness for C7: adding the spot item matching `exSpotLine`, which
carries a shipping target, emits the clearing action for that line before
the add action. -/
theorem C7_spot_targets_precursor_w :
    addItemToCart { productId := "prod-9", variantId := 2, quantity := 4 }
      [exSpotLine] =
      [ CartAction.setLineItemShippingDetails exSpotLine.id []
      , CartAction.addLineItem ("prod-9") 2 4 InventoryMode.tracked ] :=
  (C7_spot_targets_precursor
      { productId := "prod-9", variantId := 2, quantity := 4 } [exSpotLine]).1
    exSpotLine (by decide) (by decide)

/-- C8: when any contribution's currency differs from the cart's currency,
aggregation fails with CurrencyMismatch — never a silent sum; when every
contribution matches, aggregation succeeds and the result carries the
cart's currency. -/
theorem C8_currency_mismatch (cart : Cart) (contribs : List DiscountContribution) :
    ((∃ c, c ∈ contribs ∧ c.amount.currencyCode ≠ cart.currencyCode) →
        aggregate cart contribs = Except.error AggregateError.currencyMismatch)
    ∧ ((∀ c, c ∈ contribs → c.amount.currencyCode = cart.currencyCode) →
        ∃ t, aggregate cart contribs = Except.ok t ∧ t.currency = cart.currencyCode) := by
  constructor
  · rintro ⟨c, hmem, hne⟩
    have hall : contribs.all (fun c => c.amount.currencyCode == cart.currencyCode) = false := by
      cases hA : contribs.all (fun c => c.amount.currencyCode == cart.currencyCode) with
      | false => rfl
      | true =>
          have := List.all_eq_true.mp hA c hmem
          exact absurd (by simpa using this) hne
    unfold aggregate
    rw [hall]
    simp
  · intro hcur
    have hall : contribs.all (fun c => c.amount.currencyCode == cart.currencyCode) = true :=
      List.all_eq_true.mpr (fun c hc => by simp [hcur c hc])
    unfold aggregate
    rw [hall]
    simp

/-- Witness for C8: one EUR contribution against a USD cart makes
aggregation fail with CurrencyMismatch. -/
theorem C8_currency_mismatch_w :
    aggregate (createCart ("cart-1") ("USD"))
      [ { source := DiscountSource.cartCode
          discountId := "d-1"
          amount := { centAmount := 500, currencyCode := "EUR" } } ] =
      Except.error AggregateError.currencyMismatch :=
  (C8_currency_mismatch (createCart ("cart-1") ("USD")) _).1
    ⟨_, List.mem_singleton.mpr rfl, by decide⟩

/-- C10: every add-line command `addContractLineItemToCart` emits carries
inventory mode None, which passes the inventory check at any stock level;
every add action `addItemToCart` emits for a spot item carries the tracked
inventory mode, whose check requires the demanded quantity in stock. -/
theorem C10_inventory_modes (p : ContractParams) (v : Nat)
    (items : List LineItem) (sp : SpotParams) (spItems : List LineItem)
    (stock q : Nat) :
    (∀ key qty price meta mode,
        addContractLineItemToCart p v items =
          LineCommand.addLine key qty price meta mode →
        mode = InventoryMode.none ∧ inventoryCheck mode stock qty = true)
    ∧ (∀ a, a ∈ addItemToCart sp spItems →
        ∀ pid vid qty mode, a = CartAction.addLineItem pid vid qty mode →
          mode = InventoryMode.tracked)
    ∧ inventoryCheck InventoryMode.tracked stock q = decide (q ≤ stock) := by
  refine ⟨?_, ?_, rfl⟩
  · intro key qty price meta mode hcmd
    unfold addContractLineItemToCart at hcmd
    cases hf : items.find? (contractKeyMatch p) with
    | none =>
        rw [hf] at hcmd
        simp at hcmd
        exact ⟨hcmd.2.2.2.2.symm, by rw [← hcmd.2.2.2.2]; rfl⟩
    | some li =>
        rw [hf] at hcmd
        simp at hcmd
  · intro a ha pid vid qty mode hA
    unfold addItemToCart at ha
    cases hf : spItems.find? (spotMatch sp) with
    | none =>
        rw [hf] at ha
        simp at ha
        rw [ha] at hA
        injection hA with h1 h2 h3 h4
        exact h4.symm
    | some li =>
        rw [hf] at ha
        by_cases ht : 0 < li.shippingTargets.length
        · simp [ht] at ha
          rcases ha with hclear | hadd
          · rw [hclear] at hA
            cases hA
          · rw [hadd] at hA
            injection hA with h1 h2 h3 h4
            exact h4.symm
        · simp [ht] at ha
          rw [ha] at hA
          injection hA with h1 h2 h3 h4
          exact h4.symm

/-- Witness for C10: the add-line command emitted into an empty snapshot
passes the inventory check with zero stock. -/
theorem C10_inventory_modes_w :
    inventoryCheck InventoryMode.none 0 exContractParams.quantity = true :=
  ((C10_inventory_modes exContractParams 7 []
      { productId := "prod-9", variantId := 2, quantity := 4 } [] 0 1).1
    (contractLineItemKey exContractParams) exContractParams.quantity
    exContractParams.externalPriceCent (contractMetadataOf exContractParams)
    InventoryMode.none rfl).2

end CartDomain
